import Mathlib

/-!
# Tudat JSON interface: `Simulation` (simulation.h)

A shallow embedding of `tudat::json_interface::Simulation` and a verification of its
resolution pipeline (`resetGeneral`, `resetSpice`, `resetBodies`, `resetIntegrator`, `run`).

Conventions of the embedding

* Member functions become functions from the object state (`Simulation`) and, where the
  source touches it, the process-wide Spice kernel pool (`KernelPool`) to
  `Except Error` of the new state. A C++ exception is `Except.error`; the object as it is left
  half-way by an exception is not observed.
* `TimeType` (a `double` by default) is a rational number or the NaN sentinel; rounding is
  not modelled.
* `boost::shared_ptr` members are `Option`; dereferencing an unset pointer is
  `Error.nullDereference`. The pointers stored as values of a map are set, and distinct
  map entries never alias.
* `std::map< std::string, V >` is an association list (`StdMap V`); the keys of a real
  `std::map` are unique, which theorems assume as `Nodup` where they need it.
* Functions of Tudat that `simulation.h` calls but does not define are the fields of
  `Collaborators`; the generic document accessor and the Spice backend are modelled from
  their written contracts.
-/

namespace Tudat

/-! ## Documents -/

/-- The `json` value type (nlohmann): a tree of typed values. Objects list their members
in the iteration order of the underlying `std::map`. -/
inductive Json where
  | null : Json
  | bool (b : Bool) : Json
  | number (x : ℚ) : Json
  | string (s : String) : Json
  | array (xs : List Json) : Json
  | object (members : List (String × Json)) : Json

/-- A `KeyTree`: the sequence of keys leading from the root of a document to a value. -/
abbrev KeyTree := List String

/-- Modelled from the spec: the errors. The exception types of the document accessor and of
the Spice backend are not part of the visible sources; the first six constructors are the
taxonomy of section 7. `runtimeError` is the `std::runtime_error` thrown by
`Simulation::run`, and `nullDereference` stands for dereferencing an unset
`boost::shared_ptr`. -/
inductive Error where
  | missingRequiredSetting (keyTree : KeyTree) : Error
  | typeMismatch (keyTree : KeyTree) : Error
  | kernelLoadFailure (kernel : String) : Error
  | inconsistentFrame : Error
  | incompleteConfiguration : Error
  | unsupportedConfiguration : Error
  | runtimeError (what : String) : Error
  | nullDereference : Error
  deriving DecidableEq

/-- First value stored under `key` in a list of object members. -/
def lookupMember (key : String) : List (String × Json) → Option Json
  | [] => none
  | (k, v) :: rest => if k = key then some v else lookupMember key rest

/-- Resolve a key tree inside a document: every segment selects a member of an object. -/
def Json.atKeyTree : Json → KeyTree → Option Json
  | j, [] => some j
  | Json.object members, key :: rest =>
    match lookupMember key members with
    | some child => Json.atKeyTree child rest
    | none => none
  | _, _ :: _ => none

/-- Conversion of a document value to `bool`. -/
def Json.asBool : Json → Option Bool
  | Json.bool b => some b
  | _ => none

/-- Conversion of a document value to `std::string`. -/
def Json.asString : Json → Option String
  | Json.string s => some s
  | _ => none

/-- Conversion of a document value to `std::vector< path >`: an array of strings. -/
def Json.asPathVector : Json → Option (List String)
  | Json.array xs => xs.mapM Json.asString
  | _ => none

/-- Conversion of a document value to `std::map< std::string, json >`. -/
def Json.asObjectMap : Json → Option (List (String × Json))
  | Json.object members => some members
  | _ => none

/-- Modelled from the spec: `getValue< T >( settings, keyTree )` of jsonInterface.h, which is
not part of the visible sources. Section 4.1: a path that resolves to a convertible value
returns it; an absent path without default fails with `MissingRequiredSetting`; a value
that is present but not convertible fails with `TypeMismatch`. The key trees of
`simulation.h` have map segments only; a segment that cannot be followed makes the path
absent. -/
def getValue {α : Type} (convert : Json → Option α) (settings : Json) (keyTree : KeyTree) :
    Except Error α :=
  match settings.atKeyTree keyTree with
  | none => Except.error (Error.missingRequiredSetting keyTree)
  | some j =>
    match convert j with
    | some a => Except.ok a
    | none => Except.error (Error.typeMismatch keyTree)

/-- Modelled from the spec: `getValue< T >( settings, keyTree, defaultValue )` of
jsonInterface.h, which is not part of the visible sources. Section 4.1: as `getValue`,
except that an absent path returns the supplied default. -/
def getValueOr {α : Type} (convert : Json → Option α) (settings : Json) (keyTree : KeyTree)
    (defaultValue : α) : Except Error α :=
  match settings.atKeyTree keyTree with
  | none => Except.ok defaultValue
  | some j =>
    match convert j with
    | some a => Except.ok a
    | none => Except.error (Error.typeMismatch keyTree)

/-! ### Keys

Modelled from the spec: the key constants of `Keys` and `KeyTrees` (keys.h is not part of
the visible sources); section 6 lists the recognised paths. -/

/-- Modelled from the spec: `Keys::simulation`. -/
def Keys.simulation : String := "simulation"
/-- Modelled from the spec: `Keys::bodies`. -/
def Keys.bodies : String := "bodies"
/-- Modelled from the spec: `Keys::integrator`. -/
def Keys.integrator : String := "integrator"
/-- Modelled from the spec: `Keys::Body::useDefaultSettings`. -/
def Keys.Body.useDefaultSettings : String := "useDefaultSettings"
/-- Modelled from the spec: `KeyTrees::Simulation::startEpoch`. -/
def KeyTrees.Simulation.startEpoch : KeyTree := [Keys.simulation, "startEpoch"]
/-- Modelled from the spec: `KeyTrees::Simulation::endEpoch`. -/
def KeyTrees.Simulation.endEpoch : KeyTree := [Keys.simulation, "endEpoch"]
/-- Modelled from the spec: `KeyTrees::Simulation::globalFrameOrigin`. -/
def KeyTrees.Simulation.globalFrameOrigin : KeyTree := [Keys.simulation, "globalFrameOrigin"]
/-- Modelled from the spec: `KeyTrees::Simulation::globalFrameOrientation`. -/
def KeyTrees.Simulation.globalFrameOrientation : KeyTree :=
  [Keys.simulation, "globalFrameOrientation"]
/-- Modelled from the spec: `KeyTrees::Simulation::spiceKernels`. -/
def KeyTrees.Simulation.spiceKernels : KeyTree := [Keys.simulation, "spiceKernels"]
/-- Modelled from the spec: `KeyTrees::Simulation::preloadSpiceData`. -/
def KeyTrees.Simulation.preloadSpiceData : KeyTree := [Keys.simulation, "preloadSpiceData"]

/-! ## Time -/

/-- The template parameter `TimeType` (`double` by default): a number, or the
not-a-number sentinel `TUDAT_NAN`. -/
inductive TimeType where
  | num (x : ℚ) : TimeType
  | nan : TimeType
  deriving DecidableEq

/-- Subtraction of `TimeType`; NaN propagates. -/
def TimeType.sub : TimeType → TimeType → TimeType
  | TimeType.num a, TimeType.num b => TimeType.num (a - b)
  | _, _ => TimeType.nan

/-- Addition of `TimeType`; NaN propagates. -/
def TimeType.add : TimeType → TimeType → TimeType
  | TimeType.num a, TimeType.num b => TimeType.num (a + b)
  | _, _ => TimeType.nan

instance : Sub TimeType := ⟨TimeType.sub⟩
instance : Add TimeType := ⟨TimeType.add⟩

/-- The constant `TUDAT_NAN`. -/
def TUDAT_NAN : TimeType := TimeType.nan

/-! ## `std::map< std::string, V >` -/

/-- Lexicographic comparison of character sequences by character code. -/
def charsLess : List Char → List Char → Bool
  | [], [] => false
  | [], _ :: _ => true
  | _ :: _, [] => false
  | a :: as, b :: bs =>
    if a.toNat < b.toNat then true
    else if a.toNat = b.toNat then charsLess as bs
    else false

/-- The order `std::less< std::string >` of the keys of a map. -/
def keyLess (a b : String) : Bool := charsLess a.data b.data

/-- A `std::map` keyed by `std::string`: its entries in iteration order. -/
abbrev StdMap (V : Type) := List (String × V)

/-- Look-up of a key: `find`. -/
def StdMap.find? {V : Type} (m : StdMap V) (key : String) : Option V :=
  match m with
  | [] => none
  | (k, v) :: rest => if k = key then some v else StdMap.find? rest key

/-- Number of entries with the key (0 or 1): `count`. -/
def StdMap.count {V : Type} (m : StdMap V) (key : String) : Nat :=
  match StdMap.find? m key with
  | some _ => 1
  | none => 0

/-- Assignment `m[ key ] = value`: replaces the entry when the key is present, and inserts
a new entry at the place of the key in the order otherwise. -/
def StdMap.assign {V : Type} (m : StdMap V) (key : String) (value : V) : StdMap V :=
  match m with
  | [] => [(key, value)]
  | (k, v) :: rest =>
    if keyLess key k then (key, value) :: (k, v) :: rest
    else if k = key then (key, value) :: rest
    else (k, v) :: StdMap.assign rest key value

/-- The keys of a map, in iteration order. -/
def StdMap.keys {V : Type} (m : StdMap V) : List String := m.map Prod.fst

/-! ## Body settings -/

/-- Modelled from the spec: `EphemerisSettings` (createEphemeris.h is not part of the visible
sources). Section 3: the ephemeris sub-settings carry a frame-orientation field; the rest of
the record is kept as data. -/
structure EphemerisSettings where
  frameOrientation : String
  model : Json

/-- The setter `EphemerisSettings::resetFrameOrientation`. -/
def EphemerisSettings.resetFrameOrientation (e : EphemerisSettings) (frameOrientation : String) :
    EphemerisSettings :=
  { e with frameOrientation := frameOrientation }

/-- Modelled from the spec: `RotationModelSettings` (createRotationModel.h is not part of the
visible sources). Section 3 and 4.4: the rotation-model sub-settings carry an
originating-frame field; the rest of the record is kept as data. -/
structure RotationModelSettings where
  originalFrame : String
  model : Json

/-- The setter `RotationModelSettings::resetOriginalFrame`. -/
def RotationModelSettings.resetOriginalFrame (r : RotationModelSettings) (originalFrame : String) :
    RotationModelSettings :=
  { r with originalFrame := originalFrame }

/-- Modelled from the spec: `BodySettings` (createBodies.h is not part of the visible
sources). Section 3: a per-body record with sub-settings for ephemeris and rotation model,
both held through `boost::shared_ptr`; the remaining sub-settings are kept as data. -/
structure BodySettings where
  ephemerisSettings : Option EphemerisSettings
  rotationModelSettings : Option RotationModelSettings
  others : Json

/-- The frame orientation of the ephemeris settings of a body, when they are set. -/
def BodySettings.ephemerisFrameOrientation (b : BodySettings) : Option String :=
  b.ephemerisSettings.map EphemerisSettings.frameOrientation

/-- The original frame of the rotation-model settings of a body, when they are set. -/
def BodySettings.rotationOriginalFrame (b : BodySettings) : Option String :=
  b.rotationModelSettings.map RotationModelSettings.originalFrame

/-- Modelled from the spec: a runtime body of the `NamedBodyMap` (body.h is not part of the
visible sources), kept as data. -/
structure Body where
  data : Json

/-- The type `simulation_setup::NamedBodyMap`. -/
abbrev NamedBodyMap := StdMap Body

/-- Modelled from the spec: `IntegratorSettings< TimeType >` (not part of the visible sources),
kept as data. -/
structure IntegratorSettings where
  data : Json

/-- Modelled from the spec: `TranslationalStatePropagatorSettings< TimeType >` (not part of the
visible sources); `run` reads its initial states. -/
structure PropagatorSettings where
  initialStates : List ℚ
  data : Json

/-- The getter `getInitialStates`. -/
def PropagatorSettings.getInitialStates (p : PropagatorSettings) : List ℚ := p.initialStates

/-- Modelled from the spec: `SingleArcDynamicsSimulator` (not part of the visible sources),
kept as data. -/
structure SingleArcDynamicsSimulator where
  data : Json

/-- Modelled from the spec: `MultiArcDynamicsSimulator` (not part of the visible sources),
kept as data. -/
structure MultiArcDynamicsSimulator where
  data : Json

/-- A `boost::shared_ptr< DynamicsSimulator >` that is set: the dynamic type of the object
it points to. -/
inductive DynamicsSimulator where
  | singleArc (simulator : SingleArcDynamicsSimulator) : DynamicsSimulator
  | multiArc (simulator : MultiArcDynamicsSimulator) : DynamicsSimulator

/-- The cast `boost::dynamic_pointer_cast< SingleArcDynamicsSimulator >`. -/
def DynamicsSimulator.asSingleArc : DynamicsSimulator → Option SingleArcDynamicsSimulator
  | DynamicsSimulator.singleArc simulator => some simulator
  | DynamicsSimulator.multiArc _ => none

/-- The cast `boost::dynamic_pointer_cast< MultiArcDynamicsSimulator >`. -/
def DynamicsSimulator.asMultiArc : DynamicsSimulator → Option MultiArcDynamicsSimulator
  | DynamicsSimulator.singleArc _ => none
  | DynamicsSimulator.multiArc simulator => some simulator

/-! ## The Spice backend -/

/-- The process-wide set of loaded Spice kernels, in loading order. -/
abbrev KernelPool := List String

/-- Modelled from the spec: `spice_interface::clearSpiceKernels` (spiceInterface.h is not part
of the visible sources). Section 4.2 and 6: clears all currently loaded kernels. -/
def clearSpiceKernels (_pool : KernelPool) : KernelPool := []

/-- Modelled from the spec: `spice_interface::loadSpiceKernelInTudat` (spiceInterface.h is not
part of the visible sources). Section 4.2 and 6: loads the named kernel; a kernel that the
backend rejects is a fatal load error. `canLoad` tells which kernels the backend accepts. -/
def loadSpiceKernelInTudat (canLoad : String → Bool) (pool : KernelPool) (kernel : String) :
    Except Error KernelPool :=
  if canLoad kernel then Except.ok (pool ++ [kernel])
  else Except.error (Error.kernelLoadFailure kernel)

/-! ## Collaborators -/

/-- The functions of Tudat that `simulation.h` calls and does not define. Those that query
Spice read the kernel pool. -/
structure Collaborators where
  /-- Which kernel files the Spice backend can load. -/
  canLoadKernel : String → Bool
  /-- The function `getEpoch< TimeType >( settings, keyTree )`. -/
  getEpoch : Json → KeyTree → Except Error TimeType
  /-- The function `getDefaultBodySettings( bodyNames, initialTime, finalTime )`. -/
  getDefaultBodySettings :
    KernelPool → List String → TimeType → TimeType → Except Error (StdMap BodySettings)
  /-- The function `updateBodySettings( bodySettings, settings, keyTree )`; the settings it
  leaves behind are its result. -/
  updateBodySettings : BodySettings → Json → KeyTree → Except Error BodySettings
  /-- The function `createBodySettings( settings, keyTree )`. -/
  createBodySettings : Json → KeyTree → Except Error BodySettings
  /-- The function `createBodies( bodySettingsMap )`. -/
  createBodies : KernelPool → StdMap BodySettings → Except Error NamedBodyMap
  /-- The function `setGlobalFrameBodyEphemerides( bodyMap, origin, orientation )`; the body
  map it leaves behind is its result. -/
  setGlobalFrameBodyEphemerides :
    KernelPool → NamedBodyMap → String → String → Except Error NamedBodyMap
  /-- The function `createIntegratorSettings< TimeType >( settings, key, startEpoch )`. -/
  createIntegratorSettings : Json → KeyTree → TimeType → Except Error IntegratorSettings
  /-- The constructor of `SingleArcDynamicsSimulator`. -/
  makeSingleArcDynamicsSimulator :
    KernelPool → NamedBodyMap → Option IntegratorSettings → Option PropagatorSettings → Bool →
      Except Error SingleArcDynamicsSimulator
  /-- The member `SingleArcDynamicsSimulator::integrateEquationsOfMotion`; the simulator it
  leaves behind is its result. -/
  integrateEquationsOfMotion :
    KernelPool → SingleArcDynamicsSimulator → List ℚ → Except Error SingleArcDynamicsSimulator

/-! ## The class `Simulation` -/

/-- The data members of `Simulation< TimeType, StateScalarType >`. -/
structure Simulation where
  spiceKernels : List String
  preloadSpiceData : Bool
  spiceIntervalOffsets : TimeType × TimeType
  startEpoch : TimeType
  endEpoch : TimeType
  globalFrameOrigin : String
  globalFrameOrientation : String
  bodies : List String
  celestialBodies : List String
  bodiesToPropagate : List String
  bodyMap : NamedBodyMap
  bodySettingsMap : StdMap BodySettings
  integratorSettings : Option IntegratorSettings
  propagatorSettings : Option PropagatorSettings
  dynamicsSimulator : Option DynamicsSimulator
  inputFilePath : String
  settings : Json

/-- The member `Simulation::resetGeneral`. -/
def resetGeneral (env : Collaborators) (s : Simulation) : Except Error Simulation := do
  let startEpoch ← env.getEpoch s.settings KeyTrees.Simulation.startEpoch
  let endEpoch ← env.getEpoch s.settings KeyTrees.Simulation.endEpoch
  let globalFrameOrigin ← getValue Json.asString s.settings KeyTrees.Simulation.globalFrameOrigin
  let globalFrameOrientation ←
    getValue Json.asString s.settings KeyTrees.Simulation.globalFrameOrientation
  pure { s with
    startEpoch := startEpoch
    endEpoch := endEpoch
    globalFrameOrigin := globalFrameOrigin
    globalFrameOrientation := globalFrameOrientation }

/-- The loop of `resetSpice` that loads the requested kernels one after the other. -/
def loadSpiceKernels (env : Collaborators) : KernelPool → List String → Except Error KernelPool
  | pool, [] => Except.ok pool
  | pool, kernelFilePath :: rest =>
    match loadSpiceKernelInTudat env.canLoadKernel pool kernelFilePath with
    | Except.ok pool1 => loadSpiceKernels env pool1 rest
    | Except.error e => Except.error e

/-- The member `Simulation::resetSpice`, on the object and the kernel pool. -/
def resetSpice (env : Collaborators) (s : Simulation) (pool : KernelPool) :
    Except Error (Simulation × KernelPool) := do
  let spiceKernels ← getValueOr Json.asPathVector s.settings KeyTrees.Simulation.spiceKernels []
  let preloadSpiceData ←
    getValueOr Json.asBool s.settings KeyTrees.Simulation.preloadSpiceData true
  let spiceIntervalOffsets : TimeType × TimeType :=
    if preloadSpiceData then (TimeType.num (-300), TimeType.num 300) else (TUDAT_NAN, TUDAT_NAN)
  let pool1 := clearSpiceKernels pool
  let pool2 ← loadSpiceKernels env pool1 spiceKernels
  pure ({ s with
    spiceKernels := spiceKernels
    preloadSpiceData := preloadSpiceData
    spiceIntervalOffsets := spiceIntervalOffsets }, pool2)

/-- The first loop of `resetBodies`: the names of the bodies whose sub-document sets
`useDefaultSettings`, appended to `defaultBodyNames` in iteration order. -/
def collectDefaultBodyNames (settings : Json) :
    List (String × Json) → List String → Except Error (List String)
  | [], defaultBodyNames => Except.ok defaultBodyNames
  | entry :: rest, defaultBodyNames =>
    match getValueOr Json.asBool settings
        [Keys.bodies, entry.1, Keys.Body.useDefaultSettings] false with
    | Except.ok true => collectDefaultBodyNames settings rest (defaultBodyNames ++ [entry.1])
    | Except.ok false => collectDefaultBodyNames settings rest defaultBodyNames
    | Except.error e => Except.error e

/-- The time window that `resetBodies` hands to `getDefaultBodySettings`:
`startEpoch - spiceIntervalOffsets.first` and `endEpoch + spiceIntervalOffsets.second`. -/
def defaultSettingsWindow (s : Simulation) : TimeType × TimeType :=
  (s.startEpoch - s.spiceIntervalOffsets.1, s.endEpoch + s.spiceIntervalOffsets.2)

/-- The body of the second loop of `resetBodies` for one body name. -/
def resetBodySettings (env : Collaborators) (settings : Json) (globalFrameOrientation : String)
    (bodySettingsMap : StdMap BodySettings) (bodyName : String) :
    Except Error (StdMap BodySettings) :=
  if bodySettingsMap.count bodyName ≠ 0 then
    -- `bodySettingsMap[ bodyName ]` of a key that is present
    match bodySettingsMap.find? bodyName with
    | none => Except.error Error.nullDereference
    | some bodySettings =>
      match bodySettings.ephemerisSettings with
      | none => Except.error Error.nullDereference
      | some ephemerisSettings =>
        match bodySettings.rotationModelSettings with
        | none => Except.error Error.nullDereference
        | some rotationModelSettings =>
          match env.updateBodySettings
              { bodySettings with
                ephemerisSettings :=
                  some (ephemerisSettings.resetFrameOrientation globalFrameOrientation)
                rotationModelSettings :=
                  some (rotationModelSettings.resetOriginalFrame globalFrameOrientation) }
              settings [Keys.bodies, bodyName] with
          | Except.ok updated => Except.ok (bodySettingsMap.assign bodyName updated)
          | Except.error e => Except.error e
  else
    match env.createBodySettings settings [Keys.bodies, bodyName] with
    | Except.ok created => Except.ok (bodySettingsMap.assign bodyName created)
    | Except.error e => Except.error e

/-- The second loop of `resetBodies`: every body of the document, in iteration order. -/
def resetAllBodySettings (env : Collaborators) (settings : Json) (globalFrameOrientation : String) :
    StdMap BodySettings → List (String × Json) → Except Error (StdMap BodySettings)
  | bodySettingsMap, [] => Except.ok bodySettingsMap
  | bodySettingsMap, entry :: rest =>
    match resetBodySettings env settings globalFrameOrientation bodySettingsMap entry.1 with
    | Except.ok next => resetAllBodySettings env settings globalFrameOrientation next rest
    | Except.error e => Except.error e

/-- The member `Simulation::resetBodies`; `pool` is the kernel pool it runs against. -/
def resetBodies (env : Collaborators) (pool : KernelPool) (s : Simulation) :
    Except Error Simulation := do
  let bodySettingsJSON ← getValue Json.asObjectMap s.settings [Keys.bodies]
  let defaultBodyNames ← collectDefaultBodyNames s.settings bodySettingsJSON []
  let defaults ← env.getDefaultBodySettings pool defaultBodyNames
    (defaultSettingsWindow s).1 (defaultSettingsWindow s).2
  let bodySettingsMap ←
    resetAllBodySettings env s.settings s.globalFrameOrientation defaults bodySettingsJSON
  let bodyMap ← env.createBodies pool bodySettingsMap
  let bodyMap ← env.setGlobalFrameBodyEphemerides pool bodyMap
    s.globalFrameOrigin s.globalFrameOrientation
  pure { s with bodySettingsMap := bodySettingsMap, bodyMap := bodyMap }

/-- The member `Simulation::resetAccelerations`: an empty body. -/
def resetAccelerations (s : Simulation) : Simulation := s

/-- The member `Simulation::resetPropagators`: an empty body. -/
def resetPropagators (s : Simulation) : Simulation := s

/-- The member `Simulation::resetIntegrator`. -/
def resetIntegrator (env : Collaborators) (s : Simulation) : Except Error Simulation := do
  let integratorSettings ← env.createIntegratorSettings s.settings [Keys.integrator] s.startEpoch
  pure { s with integratorSettings := some integratorSettings }

/-- The member `Simulation::resetOutput`: an empty body. -/
def resetOutput (s : Simulation) : Simulation := s

/-- The member `Simulation::exportResults`: an empty body. -/
def exportResults (s : Simulation) : Simulation := s

/-- The member `Simulation::getOriginalSettings`. -/
def getOriginalSettings (s : Simulation) : Json := s.settings

/-- The member `Simulation::reset`, on the object and the kernel pool. -/
def reset (env : Collaborators) (s : Simulation) (pool : KernelPool) :
    Except Error (Simulation × KernelPool) := do
  let s1 ← resetGeneral env s
  let (s2, pool2) ← resetSpice env s1 pool
  let s3 ← resetBodies env pool2 s2
  let s4 := resetAccelerations s3
  let s5 := resetPropagators s4
  let s6 ← resetIntegrator env s5
  pure (resetOutput s6, pool2)

/-- The member `Simulation::run`; `pool` is the kernel pool it runs against. -/
def run (env : Collaborators) (pool : KernelPool) (s : Simulation) : Except Error Simulation := do
  let simulator ← env.makeSingleArcDynamicsSimulator pool
    s.bodyMap s.integratorSettings s.propagatorSettings false
  let dynamicsSimulator := DynamicsSimulator.singleArc simulator
  match dynamicsSimulator.asSingleArc with
  | some singleArcDynamicsSimulator =>
    match s.propagatorSettings with
    | none => Except.error Error.nullDereference
    | some propagatorSettings =>
      match env.integrateEquationsOfMotion pool singleArcDynamicsSimulator
          propagatorSettings.getInitialStates with
      | Except.ok integrated =>
        Except.ok { s with dynamicsSimulator := some (DynamicsSimulator.singleArc integrated) }
      | Except.error e => Except.error e
  | none =>
    match dynamicsSimulator.asMultiArc with
    | some _ =>
      Except.error (Error.runtimeError "MultiArcDynamicsSimulator not supported by JSON interface.")
    | none => Except.ok { s with dynamicsSimulator := some dynamicsSimulator }

/-! ## A concrete configuration

A small document and a concrete set of collaborators, on which the pipeline is evaluated. -/

/-- The sample document: two kernels, a default-seeded `Earth`, a `Moon` that declines the
defaults, and a `Vehicle` that gives its own ephemeris frame. -/
def sampleSettings : Json :=
  Json.object
    [ ("bodies", Json.object
        [ ("Earth", Json.object [("useDefaultSettings", Json.bool true)]),
          ("Moon", Json.object [("useDefaultSettings", Json.bool false)]),
          ("Vehicle", Json.object
            [("ephemeris", Json.object [("frameOrientation", Json.string "ECLIPJ2000")])]) ]),
      ("integrator", Json.object [("type", Json.string "rungeKutta4")]),
      ("simulation", Json.object
        [ ("endEpoch", Json.number 5000),
          ("globalFrameOrientation", Json.string "J2000"),
          ("globalFrameOrigin", Json.string "SSB"),
          ("preloadSpiceData", Json.bool true),
          ("spiceKernels", Json.array [Json.string "pck00009.tpc", Json.string "de421.bsp"]),
          ("startEpoch", Json.number 1000) ]) ]

/-- Conversion of a document value to an epoch. -/
def Json.asEpoch : Json → Option TimeType
  | Json.number x => some (TimeType.num x)
  | _ => none

/-- Sample default settings of one body: both frames are `ECLIPJ2000`. -/
def sampleDefaultBody (bodyName : String) : BodySettings :=
  { ephemerisSettings := some { frameOrientation := "ECLIPJ2000", model := Json.string bodyName }
    rotationModelSettings := some { originalFrame := "ECLIPJ2000", model := Json.string bodyName }
    others := Json.string "default" }

/-- The data of ephemeris settings that may be unset. -/
def ephemerisModel : Option EphemerisSettings → Json
  | some e => e.model
  | none => Json.null

/-- The data of rotation-model settings that may be unset. -/
def rotationModel : Option RotationModelSettings → Json
  | some r => r.model
  | none => Json.null

/-- Sample overlay of the ephemeris frame orientation given by a body sub-document. -/
def sampleUpdateEphemeris (b : BodySettings) (settings : Json) (keyTree : KeyTree) :
    BodySettings :=
  match settings.atKeyTree (keyTree ++ ["ephemeris", "frameOrientation"]) with
  | some (Json.string f) =>
    let ephemerisSettings := EphemerisSettings.mk f (ephemerisModel b.ephemerisSettings)
    { b with ephemerisSettings := some ephemerisSettings }
  | _ => b

/-- Sample overlay of the rotation-model original frame given by a body sub-document. -/
def sampleUpdateRotation (b : BodySettings) (settings : Json) (keyTree : KeyTree) :
    BodySettings :=
  match settings.atKeyTree (keyTree ++ ["rotationModel", "originalFrame"]) with
  | some (Json.string f) =>
    let rotationModelSettings := RotationModelSettings.mk f (rotationModel b.rotationModelSettings)
    { b with rotationModelSettings := some rotationModelSettings }
  | _ => b

/-- Sample overlay of a body sub-document onto existing settings: the ephemeris frame
orientation and the rotation-model original frame are replaced when the sub-document gives
them; every other field keeps its value. -/
def sampleUpdateBodySettings (b : BodySettings) (settings : Json) (keyTree : KeyTree) :
    Except Error BodySettings :=
  Except.ok (sampleUpdateRotation (sampleUpdateEphemeris b settings keyTree) settings keyTree)

/-- Sample construction of body settings from a body sub-document alone. -/
def sampleCreateBodySettings (settings : Json) (keyTree : KeyTree) : Except Error BodySettings :=
  sampleUpdateBodySettings
    { ephemerisSettings := none, rotationModelSettings := none, others := Json.null }
    settings keyTree

/-- Sample collaborators. The defaults hold an entry for each requested name and for no
other name. -/
def sampleCollaborators : Collaborators :=
  { canLoadKernel := fun _ => true
    getEpoch := fun settings keyTree => getValue Json.asEpoch settings keyTree
    getDefaultBodySettings := fun _ bodyNames _ _ =>
      Except.ok (bodyNames.foldl (fun m n => StdMap.assign m n (sampleDefaultBody n)) [])
    updateBodySettings := sampleUpdateBodySettings
    createBodySettings := sampleCreateBodySettings
    createBodies := fun _ m => Except.ok (m.map (fun entry => (entry.1, Body.mk Json.null)))
    setGlobalFrameBodyEphemerides := fun _ bodyMap _ _ => Except.ok bodyMap
    createIntegratorSettings := fun settings keyTree _ =>
      match settings.atKeyTree keyTree with
      | some j => Except.ok (IntegratorSettings.mk j)
      | none => Except.error (Error.missingRequiredSetting keyTree)
    makeSingleArcDynamicsSimulator := fun _ _ _ _ _ =>
      Except.ok (SingleArcDynamicsSimulator.mk Json.null)
    integrateEquationsOfMotion := fun _ simulator _ => Except.ok simulator }

/-- Collaborators that differ from the sample ones in the defaults only: the defaults hold an
entry for `Vehicle` as well, whether or not it was requested. -/
def eagerCollaborators : Collaborators :=
  { sampleCollaborators with
    getDefaultBodySettings := fun _ bodyNames _ _ =>
      Except.ok (StdMap.assign
        (bodyNames.foldl (fun m n => StdMap.assign m n (sampleDefaultBody n)) [])
        "Vehicle" (sampleDefaultBody "Vehicle")) }

/-- A freshly constructed object holding the sample document, before any resolution. -/
def sampleSimulation : Simulation :=
  { spiceKernels := []
    preloadSpiceData := false
    spiceIntervalOffsets := (TimeType.num 0, TimeType.num 0)
    startEpoch := TimeType.num 0
    endEpoch := TimeType.num 0
    globalFrameOrigin := ""
    globalFrameOrientation := ""
    bodies := []
    celestialBodies := []
    bodiesToPropagate := []
    bodyMap := []
    bodySettingsMap := []
    integratorSettings := none
    propagatorSettings := none
    dynamicsSimulator := none
    inputFilePath := "main.json"
    settings := sampleSettings }

/-- The sample object after `resetGeneral`. -/
def sampleGeneral : Simulation :=
  { sampleSimulation with
    startEpoch := TimeType.num 1000
    endEpoch := TimeType.num 5000
    globalFrameOrigin := "SSB"
    globalFrameOrientation := "J2000" }

/-- The sample object after `resetGeneral` and `resetSpice`. -/
def sampleSpice : Simulation :=
  { sampleGeneral with
    spiceKernels := ["pck00009.tpc", "de421.bsp"]
    preloadSpiceData := true
    spiceIntervalOffsets := (TimeType.num (-300), TimeType.num 300) }

/-- The body settings that the sample document resolves to. -/
def sampleBodySettingsMap : StdMap BodySettings :=
  [ ("Earth",
      { ephemerisSettings := some { frameOrientation := "J2000", model := Json.string "Earth" }
        rotationModelSettings := some { originalFrame := "J2000", model := Json.string "Earth" }
        others := Json.string "default" }),
    ("Moon", { ephemerisSettings := none, rotationModelSettings := none, others := Json.null }),
    ("Vehicle",
      { ephemerisSettings := some { frameOrientation := "ECLIPJ2000", model := Json.null }
        rotationModelSettings := none
        others := Json.null }) ]

/-- The sample object after `resetGeneral`, `resetSpice` and `resetBodies`. -/
def sampleBodies : Simulation :=
  { sampleSpice with
    bodySettingsMap := sampleBodySettingsMap
    bodyMap :=
      [("Earth", Body.mk Json.null), ("Moon", Body.mk Json.null), ("Vehicle", Body.mk Json.null)] }

/-- The sample object after a complete `reset`. -/
def sampleResolved : Simulation :=
  { sampleBodies with
    integratorSettings :=
      some (IntegratorSettings.mk (Json.object [("type", Json.string "rungeKutta4")])) }

/-- The body settings that the sample document resolves to with the eager defaults. -/
def eagerBodySettingsMap : StdMap BodySettings :=
  [ ("Earth",
      { ephemerisSettings := some { frameOrientation := "J2000", model := Json.string "Earth" }
        rotationModelSettings := some { originalFrame := "J2000", model := Json.string "Earth" }
        others := Json.string "default" }),
    ("Moon", { ephemerisSettings := none, rotationModelSettings := none, others := Json.null }),
    ("Vehicle",
      { ephemerisSettings :=
          some { frameOrientation := "ECLIPJ2000", model := Json.string "Vehicle" }
        rotationModelSettings :=
          some { originalFrame := "J2000", model := Json.string "Vehicle" }
        others := Json.string "default" }) ]

/-- The sample object after `resetBodies` with the eager defaults. -/
def eagerBodies : Simulation :=
  { sampleSpice with
    bodySettingsMap := eagerBodySettingsMap
    bodyMap :=
      [("Earth", Body.mk Json.null), ("Moon", Body.mk Json.null), ("Vehicle", Body.mk Json.null)] }

/-! ## Notions used to state the properties -/

/-- The body names of the document: the keys under `bodies`, in iteration order. -/
def documentBodyNames (settings : Json) : List String :=
  match settings.atKeyTree [Keys.bodies] with
  | some (Json.object members) => members.map Prod.fst
  | _ => []

/-- Whether the sub-document of a body has `useDefaultSettings = true`. -/
def requestsDefaultSettings (settings : Json) (bodyName : String) : Bool :=
  match settings.atKeyTree [Keys.bodies, bodyName, Keys.Body.useDefaultSettings] with
  | some (Json.bool true) => true
  | _ => false

/-- Whether the `useDefaultSettings` flag of a body can be read as a `bool`: it is absent or
a boolean. -/
def defaultFlagReadable (settings : Json) (bodyName : String) : Bool :=
  match settings.atKeyTree [Keys.bodies, bodyName, Keys.Body.useDefaultSettings] with
  | none => true
  | some (Json.bool _) => true
  | _ => false

/-- The defaults collaborator returns entries only for the names it was asked for. -/
def DefaultsOnlyForRequested (env : Collaborators) : Prop :=
  ∀ pool bodyNames initialTime finalTime defaults,
    env.getDefaultBodySettings pool bodyNames initialTime finalTime = Except.ok defaults →
    ∀ key, key ∈ StdMap.keys defaults → key ∈ bodyNames

/-- Both frame fields of a body set to the given orientation, where the sub-settings exist. -/
def BodySettings.resetFrames (b : BodySettings) (frameOrientation : String) : BodySettings :=
  { b with
    ephemerisSettings :=
      b.ephemerisSettings.map (fun e => e.resetFrameOrientation frameOrientation)
    rotationModelSettings :=
      b.rotationModelSettings.map (fun r => r.resetOriginalFrame frameOrientation) }

/-- The settings with which the second loop of `resetBodies` leaves one body, given the
entry (if any) that the map held for it when the loop reached the body. -/
def resolveBodySettings (env : Collaborators) (settings : Json) (globalFrameOrientation : String)
    (existing : Option BodySettings) (bodyName : String) : Except Error BodySettings :=
  match existing with
  | none => env.createBodySettings settings [Keys.bodies, bodyName]
  | some bodySettings =>
    match bodySettings.ephemerisSettings, bodySettings.rotationModelSettings with
    | some _, some _ =>
      env.updateBodySettings (bodySettings.resetFrames globalFrameOrientation)
        settings [Keys.bodies, bodyName]
    | _, _ => Except.error Error.nullDereference

/-- Modelled from the spec: a field that the document does not specify for a body. Section
4.3: the overlay is field-level, so `updateBodySettings` leaves such a field as it was. -/
def LeavesField {α : Type} (env : Collaborators) (settings : Json) (bodyName : String)
    (field : BodySettings → α) : Prop :=
  ∀ b updated, env.updateBodySettings b settings [Keys.bodies, bodyName] = Except.ok updated →
    field updated = field b

/-- Modelled from the spec: a field that the document specifies for a body, with its value.
Section 4.3: document values always win, so `updateBodySettings` leaves the field at the
value of the document. -/
def SpecifiesField {α : Type} (env : Collaborators) (settings : Json) (bodyName : String)
    (field : BodySettings → α) (value : α) : Prop :=
  ∀ b updated, env.updateBodySettings b settings [Keys.bodies, bodyName] = Except.ok updated →
    field updated = value

/-! ## Auxiliary facts -/

theorem bind_eq_ok {α β : Type} {x : Except Error α} {f : α → Except Error β} {b : β} :
    (x >>= f) = Except.ok b ↔ ∃ a, x = Except.ok a ∧ f a = Except.ok b := by
  cases x <;> simp [bind, Except.bind]

theorem pure_eq_ok {α : Type} {a b : α} :
    (pure a : Except Error α) = Except.ok b ↔ a = b := by
  simp [pure, Except.pure]

/-! ### Kernels -/

theorem loadSpiceKernels_ok (env : Collaborators) (kernels : List String) :
    ∀ pool pool1, loadSpiceKernels env pool kernels = Except.ok pool1 →
      pool1 = pool ++ kernels := by
  induction kernels with
  | nil => intro pool pool1 h; simp [loadSpiceKernels] at h; simp [h]
  | cons k rest ih =>
    intro pool pool1 h
    simp only [loadSpiceKernels, loadSpiceKernelInTudat] at h
    split at h
    · rename_i p hp
      split at hp
      · cases hp
        have := ih _ _ h
        simpa using this
      · cases hp
    · cases h

theorem loadSpiceKernels_total (env : Collaborators) (kernels : List String) :
    ∀ pool, (∀ k ∈ kernels, env.canLoadKernel k = true) →
      loadSpiceKernels env pool kernels = Except.ok (pool ++ kernels) := by
  induction kernels with
  | nil => intro pool _; simp [loadSpiceKernels]
  | cons k rest ih =>
    intro pool hall
    have hk : env.canLoadKernel k = true := hall k (by simp)
    have hrest : ∀ x ∈ rest, env.canLoadKernel x = true := fun x hx => hall x (by simp [hx])
    simp [loadSpiceKernels, loadSpiceKernelInTudat, hk, ih _ hrest]

theorem resetSpice_ok {env : Collaborators} {s s1 : Simulation} {pool pool1 : KernelPool}
    (h : resetSpice env s pool = Except.ok (s1, pool1)) :
    ∃ kernels preload,
      getValueOr Json.asPathVector s.settings KeyTrees.Simulation.spiceKernels [] =
        Except.ok kernels ∧
      getValueOr Json.asBool s.settings KeyTrees.Simulation.preloadSpiceData true =
        Except.ok preload ∧
      loadSpiceKernels env [] kernels = Except.ok pool1 ∧
      s1 = { s with
        spiceKernels := kernels
        preloadSpiceData := preload
        spiceIntervalOffsets :=
          if preload then (TimeType.num (-300), TimeType.num 300) else (TUDAT_NAN, TUDAT_NAN) } := by
  simp only [resetSpice, bind_eq_ok, pure_eq_ok, clearSpiceKernels, Prod.mk.injEq] at h
  obtain ⟨kernels, hk, preload, hp, pool2, hl, hs, hpool⟩ := h
  subst hpool
  exact ⟨kernels, preload, hk, hp, hl, hs.symm⟩

/-! ### Maps -/

theorem find?_assign {V : Type} (m : StdMap V) (key k : String) (v : V) :
    StdMap.find? (StdMap.assign m key v) k = if key = k then some v else StdMap.find? m k := by
  induction m with
  | nil => simp [StdMap.assign, StdMap.find?]
  | cons entry rest ih =>
    obtain ⟨k1, v1⟩ := entry
    simp only [StdMap.assign]
    split
    · simp [StdMap.find?]
    · split
      · rename_i hk
        subst hk
        simp only [StdMap.find?]
        split <;> rfl
      · rename_i hk
        simp only [StdMap.find?, ih]
        by_cases h1 : k1 = k
        · subst h1
          simp [hk, Ne.symm hk]
        · simp [h1]

theorem mem_keys_iff {V : Type} (m : StdMap V) (k : String) :
    k ∈ StdMap.keys m ↔ ∃ v, StdMap.find? m k = some v := by
  induction m with
  | nil => simp [StdMap.keys, StdMap.find?]
  | cons entry rest ih =>
    obtain ⟨k1, v1⟩ := entry
    simp only [StdMap.keys, List.map_cons, List.mem_cons, StdMap.find?]
    simp only [StdMap.keys] at ih
    by_cases h1 : k1 = k
    · subst h1
      simp
    · simp [h1, Ne.symm h1, ih]

/-! ### The first loop of `resetBodies` -/

theorem getValueOr_useDefaultSettings (settings : Json) (bodyName : String) :
    getValueOr Json.asBool settings [Keys.bodies, bodyName, Keys.Body.useDefaultSettings] false =
      if defaultFlagReadable settings bodyName then
        Except.ok (requestsDefaultSettings settings bodyName)
      else Except.error
        (Error.typeMismatch [Keys.bodies, bodyName, Keys.Body.useDefaultSettings]) := by
  simp only [getValueOr, defaultFlagReadable, requestsDefaultSettings]
  cases settings.atKeyTree [Keys.bodies, bodyName, Keys.Body.useDefaultSettings] with
  | none => simp
  | some j =>
    cases j with
    | bool b => cases b <;> simp [Json.asBool]
    | _ => simp [Json.asBool]

theorem collectDefaultBodyNames_ok (settings : Json) (entries : List (String × Json)) :
    ∀ acc names, collectDefaultBodyNames settings entries acc = Except.ok names →
      names = acc ++ (entries.map Prod.fst).filter (requestsDefaultSettings settings) ∧
      ∀ name ∈ entries.map Prod.fst, defaultFlagReadable settings name = true := by
  induction entries with
  | nil => intro acc names h; simp [collectDefaultBodyNames] at h; simp [h]
  | cons entry rest ih =>
    intro acc names h
    simp only [collectDefaultBodyNames, getValueOr_useDefaultSettings] at h
    by_cases hr : defaultFlagReadable settings entry.1 = true
    · simp only [hr, if_true] at h
      cases hq : requestsDefaultSettings settings entry.1
      · simp only [hq] at h
        obtain ⟨h1, h2⟩ := ih _ _ h
        refine ⟨by simp [h1, hq], ?_⟩
        intro name hname
        simp only [List.map_cons, List.mem_cons] at hname
        rcases hname with hname | hname
        · rw [hname]; exact hr
        · exact h2 name hname
      · simp only [hq] at h
        obtain ⟨h1, h2⟩ := ih _ _ h
        refine ⟨by simp [h1, hq], ?_⟩
        intro name hname
        simp only [List.map_cons, List.mem_cons] at hname
        rcases hname with hname | hname
        · rw [hname]; exact hr
        · exact h2 name hname
    · simp [hr] at h

theorem collectDefaultBodyNames_total (settings : Json) (entries : List (String × Json)) :
    ∀ acc, (∀ name ∈ entries.map Prod.fst, defaultFlagReadable settings name = true) →
      collectDefaultBodyNames settings entries acc =
        Except.ok (acc ++ (entries.map Prod.fst).filter (requestsDefaultSettings settings)) := by
  induction entries with
  | nil => intro acc _; simp [collectDefaultBodyNames]
  | cons entry rest ih =>
    intro acc hall
    have hr : defaultFlagReadable settings entry.1 = true := hall _ (by simp)
    have hrest : ∀ name ∈ rest.map Prod.fst, defaultFlagReadable settings name = true :=
      fun name hname => hall name (by simp only [List.map_cons, List.mem_cons]; exact Or.inr hname)
    simp only [collectDefaultBodyNames, getValueOr_useDefaultSettings, hr, if_true]
    cases hq : requestsDefaultSettings settings entry.1
    · simp [ih _ hrest, hq]
    · simp [ih _ hrest, hq]

theorem getValue_bodies_ok {settings : Json} {bodySettingsJSON : List (String × Json)}
    (h : getValue Json.asObjectMap settings [Keys.bodies] = Except.ok bodySettingsJSON) :
    documentBodyNames settings = bodySettingsJSON.map Prod.fst := by
  simp only [getValue] at h
  simp only [documentBodyNames]
  cases hat : settings.atKeyTree [Keys.bodies] with
  | none => simp [hat] at h
  | some j =>
    cases j with
    | object members =>
      simp only [hat, Json.asObjectMap] at h
      cases h
      rfl
    | _ => simp [hat, Json.asObjectMap] at h

/-! ### The second loop of `resetBodies` -/

theorem resetBodySettings_eq (env : Collaborators) (settings : Json) (g : String)
    (m : StdMap BodySettings) (bodyName : String) :
    resetBodySettings env settings g m bodyName =
      match resolveBodySettings env settings g (StdMap.find? m bodyName) bodyName with
      | Except.ok b => Except.ok (StdMap.assign m bodyName b)
      | Except.error e => Except.error e := by
  match hfind : StdMap.find? m bodyName with
  | none => simp [resetBodySettings, resolveBodySettings, StdMap.count, hfind]
  | some ⟨eph, rot, others⟩ =>
    cases eph <;> cases rot <;>
      simp [resetBodySettings, resolveBodySettings, StdMap.count, hfind,
        BodySettings.resetFrames]

theorem resetBodySettings_ok {env : Collaborators} {settings : Json} {g : String}
    {m m1 : StdMap BodySettings} {bodyName : String}
    (h : resetBodySettings env settings g m bodyName = Except.ok m1) :
    ∃ b, resolveBodySettings env settings g (StdMap.find? m bodyName) bodyName = Except.ok b ∧
      ∀ k, StdMap.find? m1 k = if bodyName = k then some b else StdMap.find? m k := by
  rw [resetBodySettings_eq] at h
  cases hres : resolveBodySettings env settings g (StdMap.find? m bodyName) bodyName with
  | error e => simp [hres] at h
  | ok b =>
    simp only [hres, Except.ok.injEq] at h
    subst h
    exact ⟨b, rfl, fun k => find?_assign m bodyName k b⟩

theorem resetAllBodySettings_find_other (env : Collaborators) (settings : Json) (g : String)
    (name : String) (entries : List (String × Json)) :
    ∀ m m1, name ∉ entries.map Prod.fst →
      resetAllBodySettings env settings g m entries = Except.ok m1 →
      StdMap.find? m1 name = StdMap.find? m name := by
  induction entries with
  | nil => intro m m1 _ h; simp [resetAllBodySettings] at h; simp [h]
  | cons entry rest ih =>
    intro m m1 hnot h
    simp only [List.map_cons, List.mem_cons, not_or] at hnot
    simp only [resetAllBodySettings] at h
    cases hstep : resetBodySettings env settings g m entry.1 with
    | error e => simp [hstep] at h
    | ok next =>
      simp only [hstep] at h
      obtain ⟨b, _, hfind⟩ := resetBodySettings_ok hstep
      rw [ih next m1 hnot.2 h, hfind name]
      simp [Ne.symm hnot.1]

theorem resetAllBodySettings_find_mem (env : Collaborators) (settings : Json) (g : String)
    (name : String) (entries : List (String × Json)) :
    ∀ m m1, (entries.map Prod.fst).Nodup → name ∈ entries.map Prod.fst →
      resetAllBodySettings env settings g m entries = Except.ok m1 →
      ∃ b, resolveBodySettings env settings g (StdMap.find? m name) name = Except.ok b ∧
        StdMap.find? m1 name = some b := by
  induction entries with
  | nil => intro m m1 _ hmem; simp at hmem
  | cons entry rest ih =>
    intro m m1 hnodup hmem h
    simp only [List.map_cons, List.nodup_cons] at hnodup
    simp only [List.map_cons, List.mem_cons] at hmem
    simp only [resetAllBodySettings] at h
    cases hstep : resetBodySettings env settings g m entry.1 with
    | error e => simp [hstep] at h
    | ok next =>
      simp only [hstep] at h
      obtain ⟨b, hres, hfind⟩ := resetBodySettings_ok hstep
      by_cases hhead : name = entry.1
      · rw [hhead]
        refine ⟨b, hres, ?_⟩
        rw [resetAllBodySettings_find_other env settings g entry.1 rest next m1 hnodup.1 h,
          hfind entry.1]
        simp
      · have hin : name ∈ rest.map Prod.fst := by
          rcases hmem with hmem | hmem
          · exact absurd hmem hhead
          · exact hmem
        obtain ⟨b1, hres1, hfind1⟩ := ih next m1 hnodup.2 hin h
        rw [hfind name] at hres1
        simp only [Ne.symm hhead, if_false] at hres1
        exact ⟨b1, hres1, hfind1⟩

theorem resetAllBodySettings_keys (env : Collaborators) (settings : Json) (g : String)
    (entries : List (String × Json)) :
    ∀ m m1, resetAllBodySettings env settings g m entries = Except.ok m1 →
      ∀ k, k ∈ StdMap.keys m1 ↔ k ∈ StdMap.keys m ∨ k ∈ entries.map Prod.fst := by
  induction entries with
  | nil => intro m m1 h k; simp [resetAllBodySettings] at h; simp [h]
  | cons entry rest ih =>
    intro m m1 h k
    simp only [resetAllBodySettings] at h
    cases hstep : resetBodySettings env settings g m entry.1 with
    | error e => simp [hstep] at h
    | ok next =>
      simp only [hstep] at h
      obtain ⟨b, _, hfind⟩ := resetBodySettings_ok hstep
      rw [ih next m1 h k, mem_keys_iff next k, hfind k, mem_keys_iff m k]
      simp only [List.map_cons, List.mem_cons]
      by_cases hk : entry.1 = k
      · simp [hk]
      · simp [hk, Ne.symm hk]

theorem resetBodies_ok {env : Collaborators} {pool : KernelPool} {s s1 : Simulation}
    (h : resetBodies env pool s = Except.ok s1) :
    ∃ bodySettingsJSON defaults bodySettingsMap created bodyMap,
      getValue Json.asObjectMap s.settings [Keys.bodies] = Except.ok bodySettingsJSON ∧
      collectDefaultBodyNames s.settings bodySettingsJSON [] =
        Except.ok ((documentBodyNames s.settings).filter (requestsDefaultSettings s.settings)) ∧
      env.getDefaultBodySettings pool
        ((documentBodyNames s.settings).filter (requestsDefaultSettings s.settings))
        (defaultSettingsWindow s).1 (defaultSettingsWindow s).2 = Except.ok defaults ∧
      resetAllBodySettings env s.settings s.globalFrameOrientation defaults bodySettingsJSON =
        Except.ok bodySettingsMap ∧
      env.createBodies pool bodySettingsMap = Except.ok created ∧
      env.setGlobalFrameBodyEphemerides pool created s.globalFrameOrigin
        s.globalFrameOrientation = Except.ok bodyMap ∧
      s1 = { s with bodySettingsMap := bodySettingsMap, bodyMap := bodyMap } := by
  simp only [resetBodies, bind_eq_ok, pure_eq_ok] at h
  obtain ⟨bodySettingsJSON, hdoc, names, hnames, defaults, hdef, bodySettingsMap, hall,
    created, hcreate, bodyMap, hglobal, hs⟩ := h
  have hfilter := (collectDefaultBodyNames_ok s.settings bodySettingsJSON [] names hnames).1
  simp only [List.nil_append] at hfilter
  rw [← getValue_bodies_ok hdoc] at hfilter
  subst hfilter
  exact ⟨bodySettingsJSON, defaults, bodySettingsMap, created, bodyMap, hdoc, hnames, hdef,
    hall, hcreate, hglobal, hs.symm⟩

/-! ### The sample collaborators -/

theorem requestsDefaultSettings_iff (settings : Json) (bodyName : String) :
    requestsDefaultSettings settings bodyName = true ↔
      settings.atKeyTree [Keys.bodies, bodyName, Keys.Body.useDefaultSettings] =
        some (Json.bool true) := by
  simp only [requestsDefaultSettings]
  cases settings.atKeyTree [Keys.bodies, bodyName, Keys.Body.useDefaultSettings] with
  | none => simp
  | some j =>
    cases j with
    | bool b => cases b <;> simp
    | _ => simp

theorem keys_foldl_assign (bodyNames : List String) :
    ∀ (m : StdMap BodySettings) (key : String),
      key ∈ StdMap.keys (bodyNames.foldl (fun m n => StdMap.assign m n (sampleDefaultBody n)) m) →
      key ∈ StdMap.keys m ∨ key ∈ bodyNames := by
  induction bodyNames with
  | nil => intro m key h; exact Or.inl h
  | cons n rest ih =>
    intro m key h
    simp only [List.foldl_cons] at h
    rcases ih _ key h with h1 | h1
    · rw [mem_keys_iff, find?_assign] at h1
      by_cases hn : n = key
      · exact Or.inr (by simp [hn])
      · simp only [hn, if_false] at h1
        exact Or.inl ((mem_keys_iff m key).2 h1)
    · exact Or.inr (by simp [h1])

theorem sampleCollaborators_defaults : DefaultsOnlyForRequested sampleCollaborators := by
  intro pool bodyNames initialTime finalTime defaults h key hkey
  simp only [sampleCollaborators, Except.ok.injEq] at h
  subst h
  rcases keys_foldl_assign bodyNames [] key hkey with h1 | h1
  · simp [StdMap.keys] at h1
  · exact h1

theorem sampleUpdate_Earth (b : BodySettings) :
    sampleCollaborators.updateBodySettings b sampleSettings [Keys.bodies, "Earth"] =
      Except.ok b := rfl

theorem sampleUpdate_Vehicle (b : BodySettings) :
    eagerCollaborators.updateBodySettings b sampleSettings [Keys.bodies, "Vehicle"] =
      Except.ok { b with
        ephemerisSettings :=
          some (EphemerisSettings.mk "ECLIPJ2000" (ephemerisModel b.ephemerisSettings)) } := rfl

/-! ### The whole pass -/

theorem reset_rebuilds {env : Collaborators} {s s1 : Simulation} {pool pool1 : KernelPool}
    (h : reset env s pool = Except.ok (s1, pool1)) (t : Simulation) (poolT : KernelPool)
    (hdoc : t.settings = s.settings) :
    reset env t poolT = Except.ok
      ({ t with
        startEpoch := s1.startEpoch
        endEpoch := s1.endEpoch
        globalFrameOrigin := s1.globalFrameOrigin
        globalFrameOrientation := s1.globalFrameOrientation
        spiceKernels := s1.spiceKernels
        preloadSpiceData := s1.preloadSpiceData
        spiceIntervalOffsets := s1.spiceIntervalOffsets
        bodySettingsMap := s1.bodySettingsMap
        bodyMap := s1.bodyMap
        integratorSettings := s1.integratorSettings }, pool1) := by
  simp only [reset, resetGeneral, resetSpice, resetBodies, resetIntegrator, resetAccelerations,
    resetPropagators, resetOutput, clearSpiceKernels, defaultSettingsWindow, bind_eq_ok,
    pure_eq_ok, Prod.mk.injEq, Prod.exists] at h
  obtain ⟨g1, ⟨a, ha, b, hb, o, ho, r, hr, hg1⟩, g2, p2, ⟨kernels, hk, preload, hp, p3, hl, hg2, hp2⟩,
    g3, ⟨entries, he, names, hn, defaults, hd, bsm, hbsm, created, hc, bm, hbm, hg3⟩,
    g6, ⟨i, hi, hg6⟩, hs1, hpool1⟩ := h
  subst hg1 hg2 hg3 hg6 hs1 hp2 hpool1
  simp only at hk hp he hn hd hbsm hc hbm hi
  simp [reset, resetGeneral, resetSpice, resetBodies, resetIntegrator, resetAccelerations,
    resetPropagators, resetOutput, clearSpiceKernels, defaultSettingsWindow, bind, Except.bind,
    pure, Except.pure, hdoc, ha, hb, ho, hr, hk, hp, hl, he, hn, hd, hbsm, hc, hbm, hi]

/-! ## Kernel window manager: `resetSpice` -/

/-- C8: `resetSpice` clears the kernel pool and then loads the kernels of `spiceKernels` one by
one in document order. Whatever the pool held before the call, on success the pool is exactly
the list `spiceKernels` read from the document (the empty list when the key is absent), so no
kernel from before the call remains; and the call does succeed whenever the two settings can
be read and the backend accepts every listed kernel. -/
theorem resetSpice_kernel_pool (env : Collaborators) (s : Simulation) (pool : KernelPool) :
    (∀ s1 pool1, resetSpice env s pool = Except.ok (s1, pool1) →
      pool1 = s1.spiceKernels ∧
      getValueOr Json.asPathVector s.settings KeyTrees.Simulation.spiceKernels [] =
        Except.ok s1.spiceKernels ∧
      (s.settings.atKeyTree KeyTrees.Simulation.spiceKernels = none → pool1 = [])) ∧
    (∀ kernels preload,
      getValueOr Json.asPathVector s.settings KeyTrees.Simulation.spiceKernels [] =
        Except.ok kernels →
      getValueOr Json.asBool s.settings KeyTrees.Simulation.preloadSpiceData true =
        Except.ok preload →
      (∀ k ∈ kernels, env.canLoadKernel k = true) →
      ∃ s1, resetSpice env s pool = Except.ok (s1, kernels) ∧ s1.spiceKernels = kernels) := by
  constructor
  · intro s1 pool1 h
    obtain ⟨kernels, preload, hk, _, hl, hs⟩ := resetSpice_ok h
    have hpool := loadSpiceKernels_ok env kernels _ _ hl
    subst hs
    simp only [List.nil_append] at hpool
    refine ⟨hpool, hk, ?_⟩
    intro habs
    simp only [getValueOr, habs] at hk
    cases hk
    exact hpool
  · intro kernels preload hk hp hall
    have hl := loadSpiceKernels_total env kernels [] hall
    simp only [List.nil_append] at hl
    simp [resetSpice, hk, hp, clearSpiceKernels, hl, bind, Except.bind, pure, Except.pure]

/-- C8, evaluated: on the sample document a pool holding `old.bsp` becomes exactly the two
kernels of the document, in document order. -/
theorem resetSpice_kernel_pool_witness :
    (["pck00009.tpc", "de421.bsp"] : KernelPool) = sampleSpice.spiceKernels ∧
    getValueOr Json.asPathVector sampleGeneral.settings KeyTrees.Simulation.spiceKernels [] =
      Except.ok sampleSpice.spiceKernels ∧
    (sampleGeneral.settings.atKeyTree KeyTrees.Simulation.spiceKernels = none →
      (["pck00009.tpc", "de421.bsp"] : KernelPool) = []) :=
  (resetSpice_kernel_pool sampleCollaborators sampleGeneral ["old.bsp"]).1
    sampleSpice ["pck00009.tpc", "de421.bsp"] rfl

/-- C9: `resetSpice` sets `spiceIntervalOffsets` from `preloadSpiceData` alone. When the
document gives `preloadSpiceData = true` or omits the key, the flag is true and the offsets
are exactly `(-300, 300)`; when it gives `false`, both offsets are `TUDAT_NAN`. The epochs and
the two global frame fields are left as they were. -/
theorem resetSpice_offsets (env : Collaborators) (s s1 : Simulation) (pool pool1 : KernelPool)
    (h : resetSpice env s pool = Except.ok (s1, pool1)) :
    (s1.spiceIntervalOffsets =
      if s1.preloadSpiceData then (TimeType.num (-300), TimeType.num 300)
      else (TUDAT_NAN, TUDAT_NAN)) ∧
    ((s.settings.atKeyTree KeyTrees.Simulation.preloadSpiceData = none ∨
        s.settings.atKeyTree KeyTrees.Simulation.preloadSpiceData = some (Json.bool true)) →
      s1.preloadSpiceData = true ∧
      s1.spiceIntervalOffsets = (TimeType.num (-300), TimeType.num 300)) ∧
    (s.settings.atKeyTree KeyTrees.Simulation.preloadSpiceData = some (Json.bool false) →
      s1.preloadSpiceData = false ∧ s1.spiceIntervalOffsets = (TUDAT_NAN, TUDAT_NAN)) ∧
    s1.startEpoch = s.startEpoch ∧ s1.endEpoch = s.endEpoch ∧
    s1.globalFrameOrigin = s.globalFrameOrigin ∧
    s1.globalFrameOrientation = s.globalFrameOrientation := by
  obtain ⟨kernels, preload, _, hp, _, hs⟩ := resetSpice_ok h
  subst hs
  refine ⟨rfl, ?_, ?_, rfl, rfl, rfl, rfl⟩
  · intro hdoc
    rcases hdoc with hdoc | hdoc <;>
      · simp only [getValueOr, hdoc, Json.asBool] at hp
        cases hp
        simp
  · intro hdoc
    simp only [getValueOr, hdoc, Json.asBool] at hp
    cases hp
    simp

/-- C9, evaluated: the sample document sets `preloadSpiceData = true`; the offsets are
`(-300, 300)` and the epochs and frames of the object are untouched. -/
theorem resetSpice_offsets_witness :
    (sampleSpice.spiceIntervalOffsets =
      if sampleSpice.preloadSpiceData then (TimeType.num (-300), TimeType.num 300)
      else (TUDAT_NAN, TUDAT_NAN)) ∧
    ((sampleGeneral.settings.atKeyTree KeyTrees.Simulation.preloadSpiceData = none ∨
        sampleGeneral.settings.atKeyTree KeyTrees.Simulation.preloadSpiceData =
          some (Json.bool true)) →
      sampleSpice.preloadSpiceData = true ∧
      sampleSpice.spiceIntervalOffsets = (TimeType.num (-300), TimeType.num 300)) ∧
    (sampleGeneral.settings.atKeyTree KeyTrees.Simulation.preloadSpiceData =
        some (Json.bool false) →
      sampleSpice.preloadSpiceData = false ∧
      sampleSpice.spiceIntervalOffsets = (TUDAT_NAN, TUDAT_NAN)) ∧
    sampleSpice.startEpoch = sampleGeneral.startEpoch ∧
    sampleSpice.endEpoch = sampleGeneral.endEpoch ∧
    sampleSpice.globalFrameOrigin = sampleGeneral.globalFrameOrigin ∧
    sampleSpice.globalFrameOrientation = sampleGeneral.globalFrameOrientation :=
  resetSpice_offsets sampleCollaborators sampleGeneral sampleSpice ["old.bsp"]
    ["pck00009.tpc", "de421.bsp"] rfl

/-- C1: with `preloadSpiceData` true after `resetSpice`, the window that `resetBodies` hands to
`getDefaultBodySettings` is `(startEpoch - (-300), endEpoch + 300)`, that is
`(startEpoch + 300, endEpoch + 300)`: the start of the window lies 300 after `startEpoch`,
and is never `startEpoch - 300`. -/
theorem defaultSettingsWindow_after_resetSpice (env : Collaborators) (s s1 : Simulation)
    (pool pool1 : KernelPool) (a b : ℚ)
    (h : resetSpice env s pool = Except.ok (s1, pool1))
    (hpreload : s1.preloadSpiceData = true)
    (hstart : s.startEpoch = TimeType.num a) (hend : s.endEpoch = TimeType.num b) :
    defaultSettingsWindow s1 = (TimeType.num (a + 300), TimeType.num (b + 300)) ∧
    (defaultSettingsWindow s1).1 ≠ TimeType.num (a - 300) := by
  obtain ⟨kernels, preload, _, _, _, hs⟩ := resetSpice_ok h
  subst hs
  simp only at hpreload
  subst hpreload
  have hsub : TimeType.num a - TimeType.num (-300) = TimeType.num (a + 300) := by
    show TimeType.sub _ _ = _
    simp [TimeType.sub]
  have hadd : TimeType.num b + TimeType.num 300 = TimeType.num (b + 300) := rfl
  constructor
  · simp [defaultSettingsWindow, hstart, hend, hsub, hadd]
  · simp only [defaultSettingsWindow, hstart, hsub, if_true]
    intro hcontra
    injection hcontra with hq
    linarith

/-- C1, evaluated at `startEpoch = 1000`, `endEpoch = 5000`: the window handed to
`getDefaultBodySettings` is `(1300, 5300)`, not `(700, 5300)`. -/
theorem defaultSettingsWindow_sample :
    defaultSettingsWindow sampleSpice = (TimeType.num 1300, TimeType.num 5300) ∧
    (defaultSettingsWindow sampleSpice).1 ≠ TimeType.num 700 := by
  have h := defaultSettingsWindow_after_resetSpice sampleCollaborators sampleGeneral sampleSpice
    ["old.bsp"] ["pck00009.tpc", "de421.bsp"] 1000 5000 rfl rfl rfl rfl
  norm_num at h
  exact h

/-! ## Default/override merger and frame enforcement: `resetBodies` -/

/-- C10: the list that the first loop of `resetBodies` builds, and that `resetBodies` hands to
`getDefaultBodySettings`, is the list of the body names of the document filtered by
`useDefaultSettings = true`: the names keep the iteration order of the document map, each
occurs once, and a body that omits the flag or sets it to false is not in the list. The loop
does produce the list whenever every flag is absent or a boolean. -/
theorem defaultBodyNames_exact (env : Collaborators) (pool : KernelPool) (s : Simulation)
    (bodySettingsJSON : List (String × Json))
    (hdoc : getValue Json.asObjectMap s.settings [Keys.bodies] = Except.ok bodySettingsJSON)
    (hnodup : (bodySettingsJSON.map Prod.fst).Nodup) :
    (∀ names, collectDefaultBodyNames s.settings bodySettingsJSON [] = Except.ok names →
      names = (bodySettingsJSON.map Prod.fst).filter (requestsDefaultSettings s.settings) ∧
      names.Sublist (bodySettingsJSON.map Prod.fst) ∧
      names.Nodup ∧
      (∀ name, name ∈ names ↔
        name ∈ bodySettingsJSON.map Prod.fst ∧
        s.settings.atKeyTree [Keys.bodies, name, Keys.Body.useDefaultSettings] =
          some (Json.bool true)) ∧
      (∀ name,
        (s.settings.atKeyTree [Keys.bodies, name, Keys.Body.useDefaultSettings] = none ∨
          s.settings.atKeyTree [Keys.bodies, name, Keys.Body.useDefaultSettings] =
            some (Json.bool false)) →
        name ∉ names)) ∧
    ((∀ name ∈ bodySettingsJSON.map Prod.fst, defaultFlagReadable s.settings name = true) →
      collectDefaultBodyNames s.settings bodySettingsJSON [] =
        Except.ok ((bodySettingsJSON.map Prod.fst).filter (requestsDefaultSettings s.settings))) ∧
    (∀ s1, resetBodies env pool s = Except.ok s1 →
      ∃ defaults, env.getDefaultBodySettings pool
        ((bodySettingsJSON.map Prod.fst).filter (requestsDefaultSettings s.settings))
        (defaultSettingsWindow s).1 (defaultSettingsWindow s).2 = Except.ok defaults) := by
  refine ⟨?_, ?_, ?_⟩
  · intro names h
    have hnames := (collectDefaultBodyNames_ok s.settings bodySettingsJSON [] names h).1
    simp only [List.nil_append] at hnames
    subst hnames
    refine ⟨rfl, List.filter_sublist _, hnodup.filter _, ?_, ?_⟩
    · intro name
      rw [List.mem_filter, requestsDefaultSettings_iff]
    · intro name hflag hmem
      rw [List.mem_filter, requestsDefaultSettings_iff] at hmem
      rcases hflag with hflag | hflag
      · rw [hflag] at hmem
        exact absurd hmem.2 (by simp)
      · rw [hflag] at hmem
        exact absurd hmem.2 (by simp)
  · intro hall
    have := collectDefaultBodyNames_total s.settings bodySettingsJSON [] hall
    simpa using this
  · intro s1 h
    obtain ⟨entries, defaults, _, _, _, hdoc1, _, hdef, _⟩ := resetBodies_ok h
    rw [getValue_bodies_ok hdoc] at hdef
    exact ⟨defaults, hdef⟩

/-- C10, evaluated: of the three bodies of the sample document only `Earth` sets
`useDefaultSettings = true`, and the list is `[Earth]`. -/
theorem defaultBodyNames_exact_witness :
    collectDefaultBodyNames sampleSettings
      [ ("Earth", Json.object [("useDefaultSettings", Json.bool true)]),
        ("Moon", Json.object [("useDefaultSettings", Json.bool false)]),
        ("Vehicle", Json.object
          [("ephemeris", Json.object [("frameOrientation", Json.string "ECLIPJ2000")])]) ] [] =
      Except.ok ["Earth"] ∧
    "Moon" ∉ ["Earth"] ∧ "Vehicle" ∉ ["Earth"] :=
  have h := defaultBodyNames_exact sampleCollaborators ["pck00009.tpc", "de421.bsp"] sampleSpice
    [ ("Earth", Json.object [("useDefaultSettings", Json.bool true)]),
      ("Moon", Json.object [("useDefaultSettings", Json.bool false)]),
      ("Vehicle", Json.object
        [("ephemeris", Json.object [("frameOrientation", Json.string "ECLIPJ2000")])]) ]
    rfl (by decide)
  ⟨rfl, (h.1 ["Earth"] rfl).2.2.2.2 "Moon" (Or.inr rfl),
    (h.1 ["Earth"] rfl).2.2.2.2 "Vehicle" (Or.inl rfl)⟩

/-- C7: after a successful `resetBodies`, `bodySettingsMap` has an entry for every body name
under the `bodies` key of the document; and when `getDefaultBodySettings` returns entries only for
the names it was asked for, the keys of `bodySettingsMap` are exactly the body names of the
document. -/
theorem resetBodies_covers_document (env : Collaborators) (pool : KernelPool)
    (s s1 : Simulation) (h : resetBodies env pool s = Except.ok s1) :
    (∀ name ∈ documentBodyNames s.settings, name ∈ StdMap.keys s1.bodySettingsMap) ∧
    (DefaultsOnlyForRequested env →
      ∀ name, name ∈ StdMap.keys s1.bodySettingsMap ↔ name ∈ documentBodyNames s.settings) := by
  obtain ⟨entries, defaults, bodySettingsMap, created, bodyMap, hdoc, _, hdef, hall, _, _, hs⟩ :=
    resetBodies_ok h
  have hkeys := resetAllBodySettings_keys env s.settings s.globalFrameOrientation entries
    defaults bodySettingsMap hall
  have hnames := getValue_bodies_ok hdoc
  subst hs
  constructor
  · intro name hname
    rw [hnames] at hname
    exact (hkeys name).2 (Or.inr hname)
  · intro honly name
    rw [hkeys name, hnames]
    constructor
    · intro hk
      rcases hk with hk | hk
      · have := honly _ _ _ _ _ hdef name hk
        rw [hnames] at this
        exact (List.mem_filter.1 this).1
      · exact hk
    · intro hk
      exact Or.inr hk

/-- C7, evaluated: the keys of the resolved sample map are the three bodies of the sample
document. -/
theorem resetBodies_covers_document_witness :
    (∀ name ∈ documentBodyNames sampleSpice.settings,
      name ∈ StdMap.keys sampleBodies.bodySettingsMap) ∧
    (∀ name, name ∈ StdMap.keys sampleBodies.bodySettingsMap ↔
      name ∈ documentBodyNames sampleSpice.settings) :=
  have h := resetBodies_covers_document sampleCollaborators ["pck00009.tpc", "de421.bsp"]
    sampleSpice sampleBodies rfl
  ⟨h.1, h.2 sampleCollaborators_defaults⟩

/-- C5, as stated, fails: the sample collaborators and the eager collaborators differ in the
defaults only, `Vehicle` does not set `useDefaultSettings`, and yet the two entries of
`Vehicle` differ. With the eager defaults the entry is not what `createBodySettings` builds
from the sub-document: its rotation-model original frame is `J2000`, where the document-built
settings have no rotation model at all. -/
theorem document_built_entry_counterexample :
    eagerCollaborators.createBodySettings = sampleCollaborators.createBodySettings ∧
    eagerCollaborators.updateBodySettings = sampleCollaborators.updateBodySettings ∧
    requestsDefaultSettings sampleSpice.settings "Vehicle" = false ∧
    "Vehicle" ∈ documentBodyNames sampleSpice.settings ∧
    resetBodies sampleCollaborators ["pck00009.tpc", "de421.bsp"] sampleSpice =
      Except.ok sampleBodies ∧
    resetBodies eagerCollaborators ["pck00009.tpc", "de421.bsp"] sampleSpice =
      Except.ok eagerBodies ∧
    (sampleCollaborators.createBodySettings sampleSpice.settings [Keys.bodies, "Vehicle"]).toOption
      = StdMap.find? sampleBodies.bodySettingsMap "Vehicle" ∧
    (StdMap.find? sampleBodies.bodySettingsMap "Vehicle").bind BodySettings.rotationOriginalFrame
      = none ∧
    (StdMap.find? eagerBodies.bodySettingsMap "Vehicle").bind BodySettings.rotationOriginalFrame
      = some "J2000" :=
  ⟨rfl, rfl, rfl, by decide, rfl, rfl, rfl, rfl, rfl⟩

/-- C5, amended: when `getDefaultBodySettings` returns entries only for the names it was
asked for, the entry of a document body whose `useDefaultSettings` is false or absent is what
`createBodySettings` builds from the sub-document of the body, and it is the same under any two
such defaults collaborators. -/
theorem document_built_entry (env1 env2 : Collaborators) (pool1 pool2 : KernelPool)
    (s s1 s2 : Simulation) (name : String)
    (hcreate : env2.createBodySettings = env1.createBodySettings)
    (honly1 : DefaultsOnlyForRequested env1) (honly2 : DefaultsOnlyForRequested env2)
    (hr1 : resetBodies env1 pool1 s = Except.ok s1)
    (hr2 : resetBodies env2 pool2 s = Except.ok s2)
    (hnodup : (documentBodyNames s.settings).Nodup)
    (hname : name ∈ documentBodyNames s.settings)
    (hflag : requestsDefaultSettings s.settings name = false) :
    ∃ b, env1.createBodySettings s.settings [Keys.bodies, name] = Except.ok b ∧
      StdMap.find? s1.bodySettingsMap name = some b ∧
      StdMap.find? s2.bodySettingsMap name = some b := by
  have key : ∀ (env : Collaborators) (pool : KernelPool) (t : Simulation),
      DefaultsOnlyForRequested env → resetBodies env pool s = Except.ok t →
      ∃ b, env.createBodySettings s.settings [Keys.bodies, name] = Except.ok b ∧
        StdMap.find? t.bodySettingsMap name = some b := by
    intro env pool t honly hr
    obtain ⟨entries, defaults, bodySettingsMap, _, _, hdoc, _, hdef, hall, _, _, hs⟩ :=
      resetBodies_ok hr
    have hnames := getValue_bodies_ok hdoc
    rw [hnames] at hnodup hname
    obtain ⟨b, hres, hfind⟩ := resetAllBodySettings_find_mem env s.settings
      s.globalFrameOrientation name entries defaults bodySettingsMap hnodup hname hall
    have hnone : StdMap.find? defaults name = none := by
      cases hd : StdMap.find? defaults name with
      | none => rfl
      | some d =>
        have hk : name ∈ StdMap.keys defaults := (mem_keys_iff defaults name).2 ⟨d, hd⟩
        have := honly _ _ _ _ _ hdef name hk
        rw [List.mem_filter, hflag] at this
        exact absurd this.2 (by simp)
    rw [hnone] at hres
    subst hs
    exact ⟨b, hres, hfind⟩
  obtain ⟨b1, hb1, hf1⟩ := key env1 pool1 s1 honly1 hr1
  obtain ⟨b2, hb2, hf2⟩ := key env2 pool2 s2 honly2 hr2
  rw [hcreate, hb1] at hb2
  cases hb2
  exact ⟨b1, hb1, hf1, hf2⟩

/-- C5 amended, evaluated: the `Vehicle` of the sample document is built from its
sub-document. -/
theorem document_built_entry_witness :
    ∃ b, sampleCollaborators.createBodySettings sampleSpice.settings [Keys.bodies, "Vehicle"] =
        Except.ok b ∧
      StdMap.find? sampleBodies.bodySettingsMap "Vehicle" = some b ∧
      StdMap.find? sampleBodies.bodySettingsMap "Vehicle" = some b :=
  document_built_entry sampleCollaborators sampleCollaborators ["pck00009.tpc", "de421.bsp"] []
    sampleSpice sampleBodies sampleBodies "Vehicle" rfl sampleCollaborators_defaults
    sampleCollaborators_defaults rfl rfl (by decide) (by decide) rfl

/-- C4, as stated, fails: the sample document sets `useDefaultSettings = true` for `Earth` and
specifies neither frame field, the defaults give `ECLIPJ2000` for both, and the resolved entry
has `J2000`, the global frame orientation, for both. -/
theorem default_seeded_entry_counterexample :
    requestsDefaultSettings sampleSpice.settings "Earth" = true ∧
    sampleSpice.settings.atKeyTree [Keys.bodies, "Earth", "ephemeris"] = none ∧
    sampleSpice.settings.atKeyTree [Keys.bodies, "Earth", "rotationModel"] = none ∧
    sampleCollaborators.getDefaultBodySettings ["pck00009.tpc", "de421.bsp"] ["Earth"]
      (defaultSettingsWindow sampleSpice).1 (defaultSettingsWindow sampleSpice).2 =
      Except.ok [("Earth", sampleDefaultBody "Earth")] ∧
    (sampleDefaultBody "Earth").ephemerisFrameOrientation = some "ECLIPJ2000" ∧
    (sampleDefaultBody "Earth").rotationOriginalFrame = some "ECLIPJ2000" ∧
    resetBodies sampleCollaborators ["pck00009.tpc", "de421.bsp"] sampleSpice =
      Except.ok sampleBodies ∧
    (StdMap.find? sampleBodies.bodySettingsMap "Earth").bind
      BodySettings.ephemerisFrameOrientation = some "J2000" ∧
    (StdMap.find? sampleBodies.bodySettingsMap "Earth").bind
      BodySettings.rotationOriginalFrame = some "J2000" :=
  ⟨rfl, rfl, rfl, rfl, rfl, rfl, rfl, rfl, rfl⟩

/-- C4, amended: for a document body for which `getDefaultBodySettings` returned an entry, the
resolved entry is the overlay (`updateBodySettings`) of the sub-document of the body onto that
entry with both frame fields first set to `globalFrameOrientation`. So every field the
document specifies has the value of the document; every field the document does not specify and
that does not read the two frame fields has the value of the defaults; and the ephemeris
frame orientation and the rotation-model original frame, when the document does not specify
them, equal `globalFrameOrientation`. -/
theorem default_seeded_entry (env : Collaborators) (pool : KernelPool) (s s1 : Simulation)
    (defaults : StdMap BodySettings) (name : String) (d : BodySettings)
    (h : resetBodies env pool s = Except.ok s1)
    (hnodup : (documentBodyNames s.settings).Nodup)
    (hname : name ∈ documentBodyNames s.settings)
    (hdefaults : env.getDefaultBodySettings pool
      ((documentBodyNames s.settings).filter (requestsDefaultSettings s.settings))
      (defaultSettingsWindow s).1 (defaultSettingsWindow s).2 = Except.ok defaults)
    (hd : StdMap.find? defaults name = some d) :
    ∃ e, StdMap.find? s1.bodySettingsMap name = some e ∧
      env.updateBodySettings (d.resetFrames s.globalFrameOrientation) s.settings
        [Keys.bodies, name] = Except.ok e ∧
      (∀ (α : Type) (field : BodySettings → α) (value : α),
        SpecifiesField env s.settings name field value → field e = value) ∧
      (∀ (α : Type) (field : BodySettings → α),
        LeavesField env s.settings name field →
        (∀ b g, field (BodySettings.resetFrames b g) = field b) → field e = field d) ∧
      (LeavesField env s.settings name BodySettings.ephemerisFrameOrientation →
        e.ephemerisFrameOrientation = some s.globalFrameOrientation) ∧
      (LeavesField env s.settings name BodySettings.rotationOriginalFrame →
        e.rotationOriginalFrame = some s.globalFrameOrientation) := by
  obtain ⟨entries, defaults1, bodySettingsMap, _, _, hdoc, _, hdef, hall, _, _, hs⟩ :=
    resetBodies_ok h
  rw [hdefaults] at hdef
  cases hdef
  have hnames := getValue_bodies_ok hdoc
  rw [hnames] at hnodup hname
  obtain ⟨e, hres, hfind⟩ := resetAllBodySettings_find_mem env s.settings
    s.globalFrameOrientation name entries defaults bodySettingsMap hnodup hname hall
  rw [hd] at hres
  obtain ⟨eph, rot, others⟩ := d
  cases eph with
  | none => simp [resolveBodySettings] at hres
  | some eph =>
    cases rot with
    | none => simp [resolveBodySettings] at hres
    | some rot =>
      simp only [resolveBodySettings] at hres
      subst hs
      refine ⟨e, hfind, hres, ?_, ?_, ?_, ?_⟩
      · intro α field value hspec
        exact hspec _ _ hres
      · intro α field hleave hindep
        rw [hleave _ _ hres, hindep]
      · intro hleave
        rw [hleave _ _ hres]
        rfl
      · intro hleave
        rw [hleave _ _ hres]
        rfl

/-- C4 amended, evaluated. `Earth` of the sample document is seeded from the defaults and the
document leaves all its fields alone: the other settings are those of the defaults and both
frames are the global `J2000`. With the eager defaults `Vehicle` is seeded from the defaults
and the document specifies its ephemeris frame orientation, which wins. -/
theorem default_seeded_entry_witness :
    (∃ e, StdMap.find? sampleBodies.bodySettingsMap "Earth" = some e ∧
      e.others = (sampleDefaultBody "Earth").others ∧
      e.ephemerisFrameOrientation = some sampleSpice.globalFrameOrientation ∧
      e.rotationOriginalFrame = some sampleSpice.globalFrameOrientation) ∧
    (∃ e, StdMap.find? eagerBodies.bodySettingsMap "Vehicle" = some e ∧
      e.ephemerisFrameOrientation = some "ECLIPJ2000" ∧
      e.rotationOriginalFrame = some sampleSpice.globalFrameOrientation) := by
  constructor
  · obtain ⟨e, hfind, _, _, hleave, heph, hrot⟩ :=
      default_seeded_entry sampleCollaborators ["pck00009.tpc", "de421.bsp"] sampleSpice
        sampleBodies [("Earth", sampleDefaultBody "Earth")] "Earth" (sampleDefaultBody "Earth")
        rfl (by decide) (by decide) rfl rfl
    have hl : ∀ (α : Type) (field : BodySettings → α),
        LeavesField sampleCollaborators sampleSpice.settings "Earth" field := by
      intro α field b updated hu
      rw [show sampleSpice.settings = sampleSettings from rfl, sampleUpdate_Earth] at hu
      cases hu
      rfl
    exact ⟨e, hfind, hleave _ BodySettings.others (hl _ _) (fun _ _ => rfl), heph (hl _ _),
      hrot (hl _ _)⟩
  · obtain ⟨e, hfind, _, hspec, _, _, hrot⟩ :=
      default_seeded_entry eagerCollaborators ["pck00009.tpc", "de421.bsp"] sampleSpice
        eagerBodies [("Earth", sampleDefaultBody "Earth"), ("Vehicle", sampleDefaultBody "Vehicle")]
        "Vehicle" (sampleDefaultBody "Vehicle") rfl (by decide) (by decide) rfl rfl
    have hs : SpecifiesField eagerCollaborators sampleSpice.settings "Vehicle"
        BodySettings.ephemerisFrameOrientation (some "ECLIPJ2000") := by
      intro b updated hu
      rw [show sampleSpice.settings = sampleSettings from rfl, sampleUpdate_Vehicle] at hu
      cases hu
      rfl
    have hl : LeavesField eagerCollaborators sampleSpice.settings "Vehicle"
        BodySettings.rotationOriginalFrame := by
      intro b updated hu
      rw [show sampleSpice.settings = sampleSettings from rfl, sampleUpdate_Vehicle] at hu
      cases hu
      rfl
    exact ⟨e, hfind, hspec _ _ _ hs, hrot hl⟩

/-- C2, as stated, fails: the map that `resetBodies` passes to `createBodies` for the sample
document has the global orientation `J2000`, while the document-built `Vehicle` keeps the
ephemeris frame orientation `ECLIPJ2000` of its sub-document and has no rotation model, and
the document-built `Moon` has neither sub-settings. -/
theorem frames_of_resolved_bodies_counterexample :
    resetBodies sampleCollaborators ["pck00009.tpc", "de421.bsp"] sampleSpice =
      Except.ok sampleBodies ∧
    sampleCollaborators.createBodies ["pck00009.tpc", "de421.bsp"] sampleBodies.bodySettingsMap =
      Except.ok sampleBodies.bodyMap ∧
    sampleSpice.globalFrameOrientation = "J2000" ∧
    (StdMap.find? sampleBodies.bodySettingsMap "Vehicle").bind
      BodySettings.ephemerisFrameOrientation = some "ECLIPJ2000" ∧
    (StdMap.find? sampleBodies.bodySettingsMap "Vehicle").bind
      BodySettings.rotationOriginalFrame = none ∧
    (StdMap.find? sampleBodies.bodySettingsMap "Moon").bind
      BodySettings.ephemerisFrameOrientation = none ∧
    (StdMap.find? sampleBodies.bodySettingsMap "Vehicle").bind
      BodySettings.ephemerisFrameOrientation ≠ some sampleSpice.globalFrameOrientation :=
  ⟨rfl, rfl, rfl, rfl, rfl, rfl, by decide⟩

/-- C2, amended: in the map that a successful `resetBodies` passes to `createBodies`, a
document body for which the defaults held an entry is the overlay of its sub-document onto
that entry with both frame fields set to `globalFrameOrientation`, so both frame fields equal
`globalFrameOrientation` unless the overlay changes them; a document body for which the
defaults held no entry is what `createBodySettings` builds, with the frames it is given
there. -/
theorem frames_of_resolved_bodies (env : Collaborators) (pool : KernelPool) (s s1 : Simulation)
    (name : String) (h : resetBodies env pool s = Except.ok s1)
    (hnodup : (documentBodyNames s.settings).Nodup)
    (hname : name ∈ documentBodyNames s.settings) :
    ∃ defaults e created,
      env.getDefaultBodySettings pool
        ((documentBodyNames s.settings).filter (requestsDefaultSettings s.settings))
        (defaultSettingsWindow s).1 (defaultSettingsWindow s).2 = Except.ok defaults ∧
      StdMap.find? s1.bodySettingsMap name = some e ∧
      env.createBodies pool s1.bodySettingsMap = Except.ok created ∧
      (∀ d, StdMap.find? defaults name = some d →
        (d.resetFrames s.globalFrameOrientation).ephemerisFrameOrientation =
          some s.globalFrameOrientation ∧
        (d.resetFrames s.globalFrameOrientation).rotationOriginalFrame =
          some s.globalFrameOrientation ∧
        env.updateBodySettings (d.resetFrames s.globalFrameOrientation) s.settings
          [Keys.bodies, name] = Except.ok e ∧
        (LeavesField env s.settings name BodySettings.ephemerisFrameOrientation →
          e.ephemerisFrameOrientation = some s.globalFrameOrientation) ∧
        (LeavesField env s.settings name BodySettings.rotationOriginalFrame →
          e.rotationOriginalFrame = some s.globalFrameOrientation)) ∧
      (StdMap.find? defaults name = none →
        env.createBodySettings s.settings [Keys.bodies, name] = Except.ok e) := by
  obtain ⟨entries, defaults, bodySettingsMap, created, _, hdoc, _, hdef, hall, hcreate, _, hs⟩ :=
    resetBodies_ok h
  have hnames := getValue_bodies_ok hdoc
  rw [hnames] at hnodup hname
  obtain ⟨e, hres, hfind⟩ := resetAllBodySettings_find_mem env s.settings
    s.globalFrameOrientation name entries defaults bodySettingsMap hnodup hname hall
  subst hs
  refine ⟨defaults, e, created, hdef, hfind, hcreate, ?_, ?_⟩
  · intro d hd
    rw [hd] at hres
    obtain ⟨eph, rot, others⟩ := d
    cases eph with
    | none => simp [resolveBodySettings] at hres
    | some eph =>
      cases rot with
      | none => simp [resolveBodySettings] at hres
      | some rot =>
        simp only [resolveBodySettings] at hres
        refine ⟨rfl, rfl, hres, ?_, ?_⟩
        · intro hleave
          rw [hleave _ _ hres]
          rfl
        · intro hleave
          rw [hleave _ _ hres]
          rfl
  · intro hnone
    rw [hnone] at hres
    exact hres

/-- C2 amended, evaluated: in the sample map the default-seeded `Earth` has both frames equal
to the global `J2000`. -/
theorem frames_of_resolved_bodies_witness :
    ∃ e, StdMap.find? sampleBodies.bodySettingsMap "Earth" = some e ∧
      e.ephemerisFrameOrientation = some "J2000" ∧ e.rotationOriginalFrame = some "J2000" := by
  obtain ⟨defaults, e, created, hdef, hfind, _, hseed, _⟩ :=
    frames_of_resolved_bodies sampleCollaborators ["pck00009.tpc", "de421.bsp"] sampleSpice
      sampleBodies "Earth" rfl (by decide) (by decide)
  have hdefaults : defaults = [("Earth", sampleDefaultBody "Earth")] := by
    have : Except.ok [("Earth", sampleDefaultBody "Earth")] = Except.ok defaults := hdef
    cases this
    rfl
  subst hdefaults
  have hl : ∀ (α : Type) (field : BodySettings → α),
      LeavesField sampleCollaborators sampleSpice.settings "Earth" field := by
    intro α field b updated hu
    rw [show sampleSpice.settings = sampleSettings from rfl, sampleUpdate_Earth] at hu
    cases hu
    rfl
  obtain ⟨_, _, _, heph, hrot⟩ := hseed (sampleDefaultBody "Earth") rfl
  exact ⟨e, hfind, heph (hl _ _), hrot (hl _ _)⟩

/-! ## Resolution orchestrator: `reset` and `run` -/

/-- C6: when `reset` succeeds from some prior state of the object and of the kernel pool,
calling `reset` again on the result succeeds and returns the very same object and kernel
pool, so in particular `startEpoch`, `endEpoch`, `globalFrameOrigin`,
`globalFrameOrientation`, `spiceKernels`, `preloadSpiceData`, `spiceIntervalOffsets`,
`bodySettingsMap`, `integratorSettings` and the loaded kernels are the same after the first
and after the second call. More generally `reset` from any other prior state holding the same
document resolves the same values of all these fields and the same kernel pool. -/
theorem reset_idempotent (env : Collaborators) (s s1 : Simulation) (pool pool1 : KernelPool)
    (h : reset env s pool = Except.ok (s1, pool1)) :
    reset env s1 pool1 = Except.ok (s1, pool1) ∧
    (∀ (t : Simulation) (poolT : KernelPool), t.settings = s.settings →
      ∃ t1, reset env t poolT = Except.ok (t1, pool1) ∧
        t1.startEpoch = s1.startEpoch ∧ t1.endEpoch = s1.endEpoch ∧
        t1.globalFrameOrigin = s1.globalFrameOrigin ∧
        t1.globalFrameOrientation = s1.globalFrameOrientation ∧
        t1.spiceKernels = s1.spiceKernels ∧ t1.preloadSpiceData = s1.preloadSpiceData ∧
        t1.spiceIntervalOffsets = s1.spiceIntervalOffsets ∧
        t1.bodySettingsMap = s1.bodySettingsMap ∧ t1.bodyMap = s1.bodyMap ∧
        t1.integratorSettings = s1.integratorSettings) := by
  have hself := reset_rebuilds h s pool rfl
  rw [h] at hself
  have hs1 : s1.settings = s.settings := by
    simp only [Except.ok.injEq, Prod.mk.injEq] at hself
    rw [hself.1]
  constructor
  · exact reset_rebuilds h s1 pool1 hs1
  · intro t poolT hdoc
    exact ⟨_, reset_rebuilds h t poolT hdoc, rfl, rfl, rfl, rfl, rfl, rfl, rfl, rfl, rfl, rfl⟩

/-- C6, evaluated: resolving the sample document a second time returns the resolved sample
object and its two kernels again. -/
theorem reset_idempotent_witness :
    reset sampleCollaborators sampleResolved ["pck00009.tpc", "de421.bsp"] =
      Except.ok (sampleResolved, ["pck00009.tpc", "de421.bsp"]) :=
  (reset_idempotent sampleCollaborators sampleSimulation sampleResolved ["old.bsp"]
    ["pck00009.tpc", "de421.bsp"] rfl).1

/-- C3, as stated, fails: after a complete `reset` of the sample document the propagator
settings are still unset, and `run` does not fail with `IncompleteConfiguration`: it
constructs the dynamics simulator and then dereferences the unset propagator settings. -/
theorem run_unresolved_counterexample :
    reset sampleCollaborators sampleSimulation ["old.bsp"] =
      Except.ok (sampleResolved, ["pck00009.tpc", "de421.bsp"]) ∧
    sampleResolved.propagatorSettings = none ∧
    sampleCollaborators.makeSingleArcDynamicsSimulator ["pck00009.tpc", "de421.bsp"]
      sampleResolved.bodyMap sampleResolved.integratorSettings sampleResolved.propagatorSettings
      false = Except.ok (SingleArcDynamicsSimulator.mk Json.null) ∧
    run sampleCollaborators ["pck00009.tpc", "de421.bsp"] sampleResolved =
      Except.error Error.nullDereference ∧
    run sampleCollaborators ["pck00009.tpc", "de421.bsp"] sampleResolved ≠
      Except.error Error.incompleteConfiguration :=
  ⟨rfl, rfl, rfl, rfl, by
    rw [show run sampleCollaborators ["pck00009.tpc", "de421.bsp"] sampleResolved =
      Except.error Error.nullDereference from rfl]
    intro hcontra
    cases hcontra⟩

/-- C3, amended: `run` makes no check of the propagator settings, and `resetPropagators`
assigns nothing. In every state whose propagator settings are unset, `run` starts by
constructing the single-arc dynamics simulator from `bodyMap`, `integratorSettings` and the
unset `propagatorSettings`; when the constructor fails, `run` fails with the error of the
constructor, and otherwise it fails by dereferencing the unset settings. So `run` fails in
every such state, and with `IncompleteConfiguration` only when the constructor raises it. -/
theorem run_unresolved (env : Collaborators) (pool : KernelPool) (s : Simulation)
    (hunset : s.propagatorSettings = none) :
    resetPropagators s = s ∧
    (∀ simulator, env.makeSingleArcDynamicsSimulator pool s.bodyMap s.integratorSettings none
        false = Except.ok simulator → run env pool s = Except.error Error.nullDereference) ∧
    (∀ e, env.makeSingleArcDynamicsSimulator pool s.bodyMap s.integratorSettings none
        false = Except.error e → run env pool s = Except.error e) ∧
    (∃ e, run env pool s = Except.error e) ∧
    (env.makeSingleArcDynamicsSimulator pool s.bodyMap s.integratorSettings none false ≠
        Except.error Error.incompleteConfiguration →
      run env pool s ≠ Except.error Error.incompleteConfiguration) := by
  have hok : ∀ simulator, env.makeSingleArcDynamicsSimulator pool s.bodyMap s.integratorSettings
      none false = Except.ok simulator → run env pool s = Except.error Error.nullDereference := by
    intro simulator hmk
    simp [run, hunset, hmk, bind, Except.bind, DynamicsSimulator.asSingleArc]
  have herr : ∀ e, env.makeSingleArcDynamicsSimulator pool s.bodyMap s.integratorSettings
      none false = Except.error e → run env pool s = Except.error e := by
    intro e hmk
    simp [run, hunset, hmk, bind, Except.bind]
  refine ⟨rfl, hok, herr, ?_, ?_⟩
  · cases hmk : env.makeSingleArcDynamicsSimulator pool s.bodyMap s.integratorSettings none false
      with
    | ok simulator => exact ⟨_, hok simulator hmk⟩
    | error e => exact ⟨e, herr e hmk⟩
  · intro hne
    cases hmk : env.makeSingleArcDynamicsSimulator pool s.bodyMap s.integratorSettings none false
      with
    | ok simulator =>
      rw [hok simulator hmk]
      intro hcontra
      cases hcontra
    | error e =>
      rw [herr e hmk]
      intro hcontra
      rw [hmk] at hne
      cases hcontra
      exact hne rfl

/-- C3 amended, evaluated: on the resolved sample object `run` fails by dereferencing the
unset propagator settings. -/
theorem run_unresolved_witness :
    run sampleCollaborators ["pck00009.tpc", "de421.bsp"] sampleResolved =
      Except.error Error.nullDereference :=
  (run_unresolved sampleCollaborators ["pck00009.tpc", "de421.bsp"] sampleResolved rfl).2.1
    (SingleArcDynamicsSimulator.mk Json.null) rfl


end Tudat
